import Mathlib

/-
Verification of the dispatch/revenue calculation model of the
West-texas-hybrid dashboard (src/streamlit_app.py).

Numeric values are modelled as exact rationals (ℚ).  Python float literals
such as 3.6, 0.85 and 0.4 become the rationals 18/5, 17/20 and 4/10; the
claims checked here are either exact-rational identities or carry explicit
tolerances far wider than any float rounding.
-/

namespace WestTexasHybrid

/-! ## Static historical baseline constants (BASE_REVENUE, lines 14-23) -/

def base_1y_grid_solar : ℚ := 8250000
def base_1y_grid_wind : ℚ := 12400000
def base_1y_mining_per_mw : ℚ := 222857
def base_1y_batt_per_mw : ℚ := 45000
def base_6m_grid_solar : ℚ := 4100000
def base_6m_grid_wind : ℚ := 6150000
def base_6m_mining_per_mw : ℚ := 111428
def base_6m_batt_per_mw : ℚ := 22500

/-! ## Breakeven calculator (line 136) -/

/-- Line 136: breakeven = (1e6 / m_eff) * (hp_cents / 100.0) / 24.0 -/
def breakeven (hp_cents m_eff : ℚ) : ℚ :=
  (1000000 / m_eff) * (hp_cents / 100) / 24

/-! ## Generation estimator (lines 170-171) -/

/-- Line 170: s_gen = min(solar_cap * (ghi / 1000.0) * 0.85, solar_cap)
    if ghi > 0 else 0 -/
def s_gen (ghi solar_cap : ℚ) : ℚ :=
  if ghi > 0 then min (solar_cap * (ghi / 1000) * (17/20)) solar_cap else 0

/-- Line 171: w_gen = 0 if (ws/3.6) < 3 else (wind_cap if (ws/3.6) >= 12
    else (((ws/3.6)-3)/9)**3 * wind_cap) -/
def w_gen (ws wind_cap : ℚ) : ℚ :=
  if ws / (18/5) < 3 then 0
  else if 12 ≤ ws / (18/5) then wind_cap
  else ((ws / (18/5) - 3) / 9) ^ 3 * wind_cap

/-! ## Live dispatch branch (lines 174-179) -/

structure LiveDispatch where
  m_load : ℚ
  g_export : ℚ
  m_alpha : ℚ
  b_alpha : ℚ
deriving DecidableEq, Repr

/-- Lines 174-179: the live dispatch branch.
    if current_price < breakeven:
        m_load, g_export = min(miner_mw, total_gen), max(0, total_gen - miner_mw)
        m_alpha, b_alpha = m_load * (breakeven - max(0, current_price)), 0
    else:
        m_load, g_export = 0, total_gen
        m_alpha, b_alpha = 0, batt_mw * current_price -/
def liveDispatch (price be total_gen miner_mw batt_mw : ℚ) : LiveDispatch :=
  if price < be then
    { m_load := min miner_mw total_gen
      g_export := max 0 (total_gen - miner_mw)
      m_alpha := min miner_mw total_gen * (be - max 0 price)
      b_alpha := 0 }
  else
    { m_load := 0
      g_export := total_gen
      m_alpha := 0
      b_alpha := batt_mw * price }

/-! ## Period aggregator calc_alpha (lines 193-201) -/

/-- One iteration of the loop body of calc_alpha (lines 195-200), acting on
    the accumulator (ma, ba, base):
      base += gen_mw * p                       (always)
      if p < breakeven:
          ma += m_mw * (breakeven - max(0, p))
          if p < 0: ba += min(b_mw, max(0, gen_mw - m_mw)) * abs(p)
      else: ba += b_mw * p -/
def calcStep (be m_mw b_mw gen_mw : ℚ) (acc : ℚ × ℚ × ℚ) (p : ℚ) : ℚ × ℚ × ℚ :=
  (acc.1 + (if p < be then m_mw * (be - max 0 p) else 0),
   acc.2.1 + (if p < be then (if p < 0 then min b_mw (max 0 (gen_mw - m_mw)) * |p| else 0)
              else b_mw * p),
   acc.2.2 + gen_mw * p)

/-- Lines 193-201: calc_alpha(p_series, m_mw, b_mw, gen_mw) returning
    (ma, ba, base), with the module-level breakeven passed explicitly. -/
def calc_alpha (be : ℚ) (p_series : List ℚ) (m_mw b_mw gen_mw : ℚ) : ℚ × ℚ × ℚ :=
  p_series.foldl (calcStep be m_mw b_mw gen_mw) (0, 0, 0)

/-! ## Per-point contributions of calc_alpha, and the branch classifier -/

/-- Contribution of a single price point to the ma accumulator of calc_alpha. -/
def pointMA (be m_mw p : ℚ) : ℚ :=
  if p < be then m_mw * (be - max 0 p) else 0

/-- Contribution of a single price point to the ba accumulator of calc_alpha. -/
def pointBA (be b_mw gen_mw m_mw p : ℚ) : ℚ :=
  if p < be then (if p < 0 then min b_mw (max 0 (gen_mw - m_mw)) * |p| else 0)
  else b_mw * p

/-- Contribution of a single price point to the base accumulator of calc_alpha. -/
def pointBase (gen_mw p : ℚ) : ℚ := gen_mw * p

/-- The three operating states of the dispatch policy. -/
inductive DState
| NEG
| LOW
| HIGH
deriving DecidableEq, Repr

/-- Branch taken by the dispatch code for a price p: the outer comparison is
    p < breakeven (lines 174 and 197), the inner one p < 0 (line 199). -/
def dispatchState (p be : ℚ) : DState :=
  if p < be then (if p < 0 then DState.NEG else DState.LOW) else DState.HIGH

/-! ## Dispatch policy as worded in the spec (section 4.3), for comparison -/

structure SpecDispatch where
  mining_alpha : ℚ
  battery_alpha : ℚ
  grid_baseline : ℚ
deriving DecidableEq, Repr

/-- specPoint follows the wording of the spec Dispatch Policy (section 4.3)
    for a single price point, to be compared with the code calc_alpha:
    NEGATIVE: charge = min(b, g), mining = min(m, max(0, g - charge)),
    alpha = mining*be and charge*abs(p), baseline 0; LOW: mining = min(m, g),
    alpha = mining*(be - p), baseline = max(0, g - mining)*p; HIGH: baseline
    g*p, battery b*p. -/
def specPoint (be gen_mw m_mw b_mw p : ℚ) : SpecDispatch :=
  if p < 0 then
    let charge := min b_mw gen_mw
    let mining := min m_mw (max 0 (gen_mw - charge))
    { mining_alpha := mining * be, battery_alpha := charge * |p|, grid_baseline := 0 }
  else if p < be then
    let mining := min m_mw gen_mw
    { mining_alpha := mining * (be - p), battery_alpha := 0
      grid_baseline := max 0 (gen_mw - mining) * p }
  else
    { mining_alpha := 0, battery_alpha := b_mw * p, grid_baseline := gen_mw * p }

/-! ## Fallback snapshot (line 106) -/

def fallbackGhi : ℚ := 795
def fallbackWs : ℚ := 22

/-- Line 106: the except-branch of get_live_and_history returns
    (pd.Series(np.random.uniform(15, 45, 168)), 795.0, 22.0).  The 168 fresh
    draws of np.random.uniform are modelled as an explicit stream argument;
    the irradiance and wind speed are the literal constants. -/
def fallbackSnapshot (draws : ℕ → ℚ) : List ℚ × ℚ × ℚ :=
  ((List.range 168).map draws, fallbackGhi, fallbackWs)

/-! ## Capex / ROI and optimization section (lines 144-146, 156-162) -/

/-- Python int() truncates toward zero. -/
def pyInt (x : ℚ) : ℤ := if 0 ≤ x then ⌊x⌋ else ⌈x⌉

/-- Line 144: ann_alpha = BASE_REVENUE['1y_mining_per_mw'] * miner_mw * 0.4 -/
def ann_alpha (miner_mw : ℚ) : ℚ := base_1y_mining_per_mw * miner_mw * (4/10)

/-- Line 145: roi_years = total_capex / ann_alpha if ann_alpha > 0 else 0 -/
def roi_years (total_capex ann : ℚ) : ℚ := if ann > 0 then total_capex / ann else 0

/-- Line 146: irr_est = (ann_alpha / total_capex) * 100 if total_capex > 0 else 0 -/
def irr_est (ann total_capex : ℚ) : ℚ :=
  if total_capex > 0 then (ann / total_capex) * 100 else 0

/-- Line 156: ideal_m = int((solar_cap + wind_cap) * 0.20) -/
def ideal_m (solar_cap wind_cap : ℚ) : ℤ := pyInt ((solar_cap + wind_cap) * (20/100))

/-- Line 156: ideal_b = int((solar_cap + wind_cap) * 0.30) -/
def ideal_b (solar_cap wind_cap : ℚ) : ℤ := pyInt ((solar_cap + wind_cap) * (30/100))

/-- Line 157: curr_val = 1y_mining_per_mw * miner_mw + 1y_batt_per_mw * batt_mw -/
def curr_val (miner_mw batt_mw : ℚ) : ℚ :=
  base_1y_mining_per_mw * miner_mw + base_1y_batt_per_mw * batt_mw

/-- Line 158: ideal_val = 1y_mining_per_mw * ideal_m + 1y_batt_per_mw * ideal_b -/
def ideal_val (solar_cap wind_cap : ℚ) : ℚ :=
  base_1y_mining_per_mw * (ideal_m solar_cap wind_cap : ℚ) +
    base_1y_batt_per_mw * (ideal_b solar_cap wind_cap : ℚ)

/-- Line 162: the delta string computes ((ideal_val - curr_val) / curr_val) * 100
    with no guard; Python division raises ZeroDivisionError on a zero
    denominator, modelled as none. -/
def optDeltaPct (ideal curr : ℚ) : Option ℚ :=
  if curr = 0 then none else some ((ideal - curr) / curr * 100)

/-! ## Scaled historical projector (lines 144, 216-217) -/

structure Projection where
  grid : ℚ
  mining : ℚ
  battery : ℚ
deriving DecidableEq, Repr

/-- Line 217 (with line 144): the 1-year row of display_box:
    mining = 1y_mining_per_mw * miner_mw * 0.4 (= ann_alpha),
    battery = 1y_batt_per_mw * batt_mw,
    grid = (1y_grid_solar + 1y_grid_wind) * (solar_cap / 100). -/
def project_1y (solar_cap wind_cap miner_mw batt_mw : ℚ) : Projection :=
  { grid := (base_1y_grid_solar + base_1y_grid_wind) * (solar_cap / 100)
    mining := base_1y_mining_per_mw * miner_mw * (4/10)
    battery := base_1y_batt_per_mw * batt_mw }

/-- Line 216: the 6-month row of display_box, same shape with the 6m constants. -/
def project_6m (solar_cap wind_cap miner_mw batt_mw : ℚ) : Projection :=
  { grid := (base_6m_grid_solar + base_6m_grid_wind) * (solar_cap / 100)
    mining := base_6m_mining_per_mw * miner_mw * (4/10)
    battery := base_6m_batt_per_mw * batt_mw }

/-- projectSpec follows the wording of the spec Scaled Historical Projector
    (section 4.5), to be compared with project_1y:
    grid = base_solar * (solar/100) + base_wind * (wind/100),
    mining = base_mining_per_mw * miner, battery = base_batt_per_mw * batt. -/
def projectSpec (bs bw bm bb solar_cap wind_cap miner_mw batt_mw : ℚ) : Projection :=
  { grid := bs * (solar_cap / 100) + bw * (wind_cap / 100)
    mining := bm * miner_mw
    battery := bb * batt_mw }

end WestTexasHybrid

namespace WestTexasHybrid

/-! ## Theorems -/

/-- C7: for all efficiency > 0, breakeven(hashprice_cents, efficiency) equals
    (1000000 / efficiency) * (hashprice_cents / 100) / 24, and breakeven(4, 19)
    is within 0.01 of 87.72 dollars per MWh. -/
theorem C7_breakeven_formula (hp m_eff : ℚ) (h : 0 < m_eff) :
    breakeven hp m_eff = (1000000 / m_eff) * (hp / 100) / 24 ∧
    |breakeven 4 19 - 8772/100| ≤ 1/100 := by
  refine ⟨rfl, ?_⟩
  rw [abs_le]
  norm_num [breakeven]

theorem C7_breakeven_witness :
    (0:ℚ) < 19 ∧
    (breakeven 4 19 = (1000000 / 19) * (4 / 100) / 24 ∧
      |breakeven 4 19 - 8772/100| ≤ 1/100) :=
  ⟨by norm_num, C7_breakeven_formula 4 19 (by norm_num)⟩

/-- C9: s_gen returns 0 for every irradiance ≤ 0, and
    min(capacity * (irradiance/1000) * 0.85, capacity) otherwise; concretely
    s_gen(1500, 100) = 100 (clamped at capacity) and s_gen(500, 100) = 42.5. -/
theorem C9_solar_output (ghi cap : ℚ) :
    (ghi ≤ 0 → s_gen ghi cap = 0) ∧
    (0 < ghi → s_gen ghi cap = min (cap * (ghi / 1000) * (17/20)) cap) ∧
    s_gen 1500 100 = 100 ∧ s_gen 500 100 = 42.5 := by
  refine ⟨?_, ?_, ?_, ?_⟩
  · intro h; unfold s_gen; rw [if_neg (not_lt.2 h)]
  · intro h; unfold s_gen; rw [if_pos h]
  · unfold s_gen
    rw [if_pos (by norm_num)]
    norm_num [min_def]
  · unfold s_gen
    rw [if_pos (by norm_num)]
    norm_num [min_def]

theorem C9_solar_witness :
    s_gen (-5) 100 = 0 ∧ s_gen 795 100 = min (100 * (795 / 1000) * (17/20)) 100 :=
  ⟨(C9_solar_output (-5) 100).1 (by norm_num), (C9_solar_output 795 100).2.1 (by norm_num)⟩

/-- C3 counterexample: the claim says w_gen(speed_kmh, capacity) = 0 for every
    speed_kmh > 90 (25 m/s cut-out), but the code has no cut-out branch:
    w_gen(180, 100) = 100 ≠ 0 although 180 > 90. -/
theorem C3_wind_cex : w_gen 180 100 = 100 ∧ (100:ℚ) ≠ 0 ∧ (90:ℚ) < 180 := by
  refine ⟨?_, by norm_num, by norm_num⟩
  unfold w_gen
  rw [if_neg (by norm_num), if_pos (by norm_num)]

/-- C3 amended: w_gen converts km/h to m/s by dividing by 3.6, returns 0 for
    every speed below 3 m/s, capacity * ((speed_ms - 3)/9)^3 for speeds between
    3 and 12 m/s, and capacity for every speed at or above 12 m/s — there is no
    cut-out, so w_gen(speed_kmh, capacity) = capacity for every speed_kmh > 90. -/
theorem C3_wind_amended (ws cap : ℚ) :
    (ws / (18/5) < 3 → w_gen ws cap = 0) ∧
    (3 ≤ ws / (18/5) → ws / (18/5) < 12 → w_gen ws cap = ((ws / (18/5) - 3) / 9) ^ 3 * cap) ∧
    (12 ≤ ws / (18/5) → w_gen ws cap = cap) ∧
    (90 < ws → w_gen ws cap = cap) := by
  refine ⟨?_, ?_, ?_, ?_⟩
  · intro h; unfold w_gen; rw [if_pos h]
  · intro h1 h2; unfold w_gen; rw [if_neg (not_lt.2 h1), if_neg (not_le.2 h2)]
  · intro h; unfold w_gen; rw [if_neg (not_lt.2 (by linarith)), if_pos h]
  · intro h
    have h12 : (12:ℚ) ≤ ws / (18/5) := by
      rw [le_div_iff (by norm_num)]
      linarith
    unfold w_gen
    rw [if_neg (not_lt.2 (by linarith)), if_pos h12]

theorem C3_wind_witness : (90:ℚ) < 100 ∧ w_gen 100 50 = 50 :=
  ⟨by norm_num, (C3_wind_amended 100 50).2.2.2 (by norm_num)⟩

/-- C4 counterexample: the claim says the projector grid term is
    base_solar * (solar/100) + base_wind * (wind/100) and the mining term is
    base_mining_per_mw * miner_mw, but at solar = 100, wind = 0, miner = 35,
    batt = 60 the code yields grid = 20650000 (both baselines scaled by solar
    capacity) instead of 8250000, and mining = 3119998 (a 0.4 factor applied)
    instead of 7799995. -/
theorem C4_project_cex :
    (project_1y 100 0 35 60).grid = 20650000 ∧
    (projectSpec base_1y_grid_solar base_1y_grid_wind base_1y_mining_per_mw
      base_1y_batt_per_mw 100 0 35 60).grid = 8250000 ∧
    (project_1y 100 0 35 60).mining = 3119998 ∧
    (projectSpec base_1y_grid_solar base_1y_grid_wind base_1y_mining_per_mw
      base_1y_batt_per_mw 100 0 35 60).mining = 7799995 ∧
    ((20650000:ℚ) ≠ 8250000 ∧ (3119998:ℚ) ≠ 7799995) := by
  refine ⟨?_, ?_, ?_, ?_, by norm_num, by norm_num⟩ <;>
    norm_num [project_1y, projectSpec, base_1y_grid_solar, base_1y_grid_wind,
      base_1y_mining_per_mw, base_1y_batt_per_mw]

/-- C4 amended: the projector is linear, but the grid term scales BOTH
    baselines by solar capacity (wind capacity is ignored entirely) and the
    mining term carries an extra 0.4 factor:
    grid = (base_solar + base_wind) * (solar_mw/100),
    mining = base_mining_per_mw * miner_mw * 0.4,
    battery = base_batt_per_mw * battery_mw; doubling solar_mw exactly doubles
    the grid term. -/
theorem C4_project_amended (s w w2 m b : ℚ) :
    project_1y s w m b = project_1y s w2 m b ∧
    project_6m s w m b = project_6m s w2 m b ∧
    (project_1y (2 * s) w m b).grid = 2 * (project_1y s w m b).grid ∧
    (project_1y s w m b).grid = (base_1y_grid_solar + base_1y_grid_wind) * (s / 100) ∧
    (project_1y s w m b).mining = base_1y_mining_per_mw * m * (4/10) ∧
    (project_1y s w m b).battery = base_1y_batt_per_mw * b := by
  refine ⟨rfl, rfl, ?_, rfl, rfl, rfl⟩
  show (base_1y_grid_solar + base_1y_grid_wind) * (2 * s / 100) =
    2 * ((base_1y_grid_solar + base_1y_grid_wind) * (s / 100))
  ring

end WestTexasHybrid

namespace WestTexasHybrid

/-! ## Helper lemmas on calc_alpha -/

theorem calc_foldl_eq (be m b g : ℚ) (ps : List ℚ) (acc : ℚ × ℚ × ℚ) :
    ps.foldl (calcStep be m b g) acc =
      (acc.1 + (ps.map (pointMA be m)).sum,
       acc.2.1 + (ps.map (pointBA be b g m)).sum,
       acc.2.2 + (ps.map (pointBase g)).sum) := by
  induction ps generalizing acc with
  | nil => simp
  | cons p rest ih =>
    rw [List.foldl_cons, ih]
    simp only [calcStep, List.map_cons, List.sum_cons, pointMA, pointBA, pointBase,
      Prod.mk.injEq]
    refine ⟨by ring, by ring, by ring⟩

theorem calc_alpha_singleton (be m b g p : ℚ) :
    calc_alpha be [p] m b g = (pointMA be m p, pointBA be b g m p, pointBase g p) := by
  rw [calc_alpha, calc_foldl_eq]
  simp

/-- C2 counterexample: the claim says a point with 0 ≤ price < breakeven
    contributes grid_baseline = max(0, generation - mining)*price, but at the
    single point price = 10 with generation = 50, miner = 35, battery = 60 and
    the default breakeven(4, 19), the code base total is 50*10 = 500 while the
    spec dispatch contributes max(0, 50-35)*10 = 150. -/
theorem C2_fold_cex :
    (calc_alpha (breakeven 4 19) [10] 35 60 50).2.2 = 500 ∧
    (specPoint (breakeven 4 19) 50 35 60 10).grid_baseline = 150 ∧
    (500:ℚ) ≠ 150 := by
  refine ⟨?_, ?_, by norm_num⟩
  · rw [calc_alpha_singleton]
    norm_num [pointBase]
  · rw [specPoint, if_neg (by norm_num), if_pos (by norm_num [breakeven])]
    norm_num [min_def, max_def]

/-- C2 amended: the aggregator calc_alpha equals the fold of the code's own
    per-point dispatch with the same fixed generation at every point: each
    point contributes base = generation * price unconditionally (also for
    negative prices and for prices at or above breakeven), each point with
    price < breakeven contributes ma = miner_mw * (breakeven - max(0, price))
    uncapped by generation, each point with price < 0 additionally contributes
    ba = min(battery_mw, max(0, generation - miner_mw)) * |price|, and each
    point with price ≥ breakeven contributes ba = battery_mw * price. -/
theorem C2_fold_amended (be m b g : ℚ) (ps : List ℚ) :
    calc_alpha be ps m b g =
      ((ps.map (pointMA be m)).sum,
       (ps.map (pointBA be b g m)).sum,
       (ps.map (pointBase g)).sum) := by
  rw [calc_alpha, calc_foldl_eq]
  simp

/-- C1 counterexample: the claim says that at price = -10 with generation 50,
    battery 60, miner 35 the dispatch yields battery_alpha = 500,
    mining_alpha = 0 and grid_baseline = 0; with the default breakeven(4, 19)
    the code yields ma = 175000/57 ≠ 0, ba = 150 ≠ 500 and base = -500 ≠ 0. -/
theorem C1_neg_cex :
    calc_alpha (breakeven 4 19) [-10] 35 60 50 = (175000/57, 150, -500) ∧
    ((175000:ℚ)/57 ≠ 0 ∧ (150:ℚ) ≠ 500 ∧ (-500:ℚ) ≠ 0) := by
  refine ⟨?_, by norm_num, by norm_num, by norm_num⟩
  rw [calc_alpha_singleton]
  have h1 : pointMA (breakeven 4 19) 35 (-10) = 175000/57 := by
    rw [pointMA, if_pos (by norm_num [breakeven])]
    norm_num [max_def, breakeven]
  have h2 : pointBA (breakeven 4 19) 60 50 35 (-10) = 150 := by
    rw [pointBA, if_pos (by norm_num [breakeven]), if_pos (by norm_num)]
    norm_num [min_def, max_def]
  have h3 : pointBase 50 (-10) = (-500:ℚ) := by norm_num [pointBase]
  rw [h1, h2, h3]

/-- C1 amended: for every price < 0 (and breakeven > 0) the code takes the
    NEGATIVE branch with: mining credited at FULL fleet capacity,
    ma-contribution = miner_mw * breakeven; battery charged only with the
    generation beyond miner capacity, ba-contribution =
    min(battery_mw, max(0, generation - miner_mw)) * |price|; base
    contribution = generation * price (negative), not 0; the live branch gives
    m_alpha = min(miner_mw, generation) * breakeven and b_alpha = 0.  In
    particular at price = -10, generation 50, battery 60, miner 35: charge 15,
    ba = 150, ma = 35 * breakeven, base = -500. -/
theorem C1_neg_amended (be g m b p : ℚ) (hp : p < 0) (hbe : 0 < be) :
    dispatchState p be = DState.NEG ∧
    pointMA be m p = m * be ∧
    pointBA be b g m p = min b (max 0 (g - m)) * |p| ∧
    pointBase g p = g * p ∧
    (liveDispatch p be g m b).m_alpha = min m g * be ∧
    (liveDispatch p be g m b).b_alpha = 0 ∧
    calc_alpha be [-10] 35 60 50 = (35 * be, 150, -500) := by
  have hpb : p < be := hp.trans hbe
  have hmax : max (0:ℚ) p = 0 := max_eq_left hp.le
  refine ⟨?_, ?_, ?_, rfl, ?_, ?_, ?_⟩
  · rw [dispatchState, if_pos hpb, if_pos hp]
  · rw [pointMA, if_pos hpb, hmax, sub_zero]
  · rw [pointBA, if_pos hpb, if_pos hp]
  · rw [liveDispatch, if_pos hpb]
    show min m g * (be - max 0 p) = min m g * be
    rw [hmax, sub_zero]
  · rw [liveDispatch, if_pos hpb]
  · rw [calc_alpha_singleton]
    have h10 : (-10:ℚ) < be := by linarith
    have h1 : pointMA be 35 (-10) = 35 * be := by
      rw [pointMA, if_pos h10, show max (0:ℚ) (-10) = 0 by norm_num [max_def], sub_zero]
    have h2 : pointBA be 60 50 35 (-10) = 150 := by
      rw [pointBA, if_pos h10, if_pos (by norm_num)]
      norm_num [min_def, max_def]
    have h3 : pointBase 50 (-10) = (-500:ℚ) := by norm_num [pointBase]
    rw [h1, h2, h3]

theorem C1_neg_witness :
    (-10:ℚ) < 0 ∧ 0 < breakeven 4 19 ∧
    calc_alpha (breakeven 4 19) [-10] 35 60 50 = (35 * breakeven 4 19, 150, -500) :=
  ⟨by norm_num, by norm_num [breakeven],
    (C1_neg_amended (breakeven 4 19) 50 35 60 (-10) (by norm_num)
      (by norm_num [breakeven])).2.2.2.2.2.2⟩

/-- C8: at price exactly equal to breakeven the dispatch takes the HIGH
    branch: ma-contribution 0, ba-contribution battery_mw * price, base
    contribution generation * price, and the live branch gives m_alpha = 0 and
    b_alpha = battery_mw * price; at price = breakeven - 0.01 the LOW branch
    is taken; the LOW/HIGH boundary is strict less-than on price for every
    generation and configuration. -/
theorem C8_boundary (be g m b : ℚ) (hbe : 1/100 ≤ be) :
    dispatchState be be = DState.HIGH ∧
    pointMA be m be = 0 ∧
    pointBA be b g m be = b * be ∧
    pointBase g be = g * be ∧
    (liveDispatch be be g m b).m_alpha = 0 ∧
    (liveDispatch be be g m b).b_alpha = b * be ∧
    dispatchState (be - 1/100) be = DState.LOW ∧
    (∀ p : ℚ, dispatchState p be = DState.HIGH ↔ ¬ p < be) := by
  have hno : ¬ be < be := lt_irrefl be
  refine ⟨?_, ?_, ?_, rfl, ?_, ?_, ?_, ?_⟩
  · rw [dispatchState, if_neg hno]
  · rw [pointMA, if_neg hno]
  · rw [pointBA, if_neg hno]
  · rw [liveDispatch, if_neg hno]
  · rw [liveDispatch, if_neg hno]
  · rw [dispatchState, if_pos (by linarith), if_neg (not_lt.2 (by linarith))]
  · intro p
    constructor
    · intro h hlt
      rw [dispatchState, if_pos hlt] at h
      by_cases hp : p < 0
      · rw [if_pos hp] at h
        exact DState.noConfusion h
      · rw [if_neg hp] at h
        exact DState.noConfusion h
    · intro h
      rw [dispatchState, if_neg h]

theorem C8_boundary_witness :
    (1/100 : ℚ) ≤ breakeven 4 19 ∧
    dispatchState (breakeven 4 19) (breakeven 4 19) = DState.HIGH ∧
    dispatchState (breakeven 4 19 - 1/100) (breakeven 4 19) = DState.LOW :=
  ⟨by norm_num [breakeven],
   (C8_boundary (breakeven 4 19) 50 35 60 (by norm_num [breakeven])).1,
   (C8_boundary (breakeven 4 19) 50 35 60 (by norm_num [breakeven])).2.2.2.2.2.2.1⟩

/-- C10: calc_alpha on the empty series returns (0, 0, 0) — mining total,
    battery/grid total and grand total are all zero — and on a one-element
    series it returns exactly that point's contributions. -/
theorem C10_empty_single (be m b g p : ℚ) :
    calc_alpha be [] m b g = (0, 0, 0) ∧
    (calc_alpha be [] m b g).2.1 + (calc_alpha be [] m b g).2.2 = 0 ∧
    (calc_alpha be [] m b g).1 + (calc_alpha be [] m b g).2.1 +
      (calc_alpha be [] m b g).2.2 = 0 ∧
    calc_alpha be [p] m b g = (pointMA be m p, pointBA be b g m p, pointBase g p) := by
  have h0 : calc_alpha be [] m b g = ((0:ℚ), (0:ℚ), (0:ℚ)) := rfl
  refine ⟨h0, ?_, ?_, calc_alpha_singleton be m b g p⟩ <;> rw [h0] <;> norm_num

/-- C5 counterexample: the claim says two invocations of the failure path
    receive identical price-history series, but the fallback draws the series
    fresh from np.random.uniform(15, 45, 168): two valid draw streams (all
    values within [15, 45)) give different histories. -/
theorem C5_fallback_cex :
    (fallbackSnapshot (fun _ => 20)).1 ≠ (fallbackSnapshot (fun _ => 30)).1 ∧
    ((15:ℚ) ≤ 20 ∧ (20:ℚ) < 45) ∧ ((15:ℚ) ≤ 30 ∧ (30:ℚ) < 45) := by
  refine ⟨by decide, by norm_num, by norm_num⟩

/-- C5 amended: on the failure path the irradiance and wind speed are the
    deterministic constants 795.0 and 22.0 — identical across any two
    invocations — but the price-history series is 168 fresh random draws and
    is not deterministic. -/
theorem C5_fallback_amended (d1 d2 : ℕ → ℚ) :
    (fallbackSnapshot d1).2.1 = 795 ∧ (fallbackSnapshot d1).2.2 = 22 ∧
    (fallbackSnapshot d1).2 = (fallbackSnapshot d2).2 ∧
    (fallbackSnapshot d1).1.length = 168 := by
  refine ⟨rfl, rfl, rfl, by simp [fallbackSnapshot]⟩

/-- C6: the roi_years and irr_est percentage computations are guarded against
    a zero denominator, but the optimization-delta percentage on line 162 is
    not: with miner_mw = 0 and battery_mw = 0 the baseline curr_val is 0 and
    ((ideal_val - curr_val) / curr_val) * 100 raises ZeroDivisionError
    (modelled as none), contradicting the claim. -/
theorem C6_opt_delta_div_raises :
    curr_val 0 0 = 0 ∧
    optDeltaPct (ideal_val 100 100) (curr_val 0 0) = none ∧
    ideal_val 100 100 = 11614280 ∧
    roi_years 1000 0 = 0 ∧ irr_est 500 0 = 0 := by
  have hc : curr_val 0 0 = 0 := by norm_num [curr_val]
  have hm : ideal_m 100 100 = 40 := by
    rw [ideal_m, pyInt, if_pos (by norm_num)]
    rw [show ((100:ℚ) + 100) * (20/100) = ((40:ℤ):ℚ) by norm_num]
    exact Int.floor_intCast 40
  have hb : ideal_b 100 100 = 60 := by
    rw [ideal_b, pyInt, if_pos (by norm_num)]
    rw [show ((100:ℚ) + 100) * (30/100) = ((60:ℤ):ℚ) by norm_num]
    exact Int.floor_intCast 60
  refine ⟨hc, ?_, ?_, ?_, ?_⟩
  · rw [hc, optDeltaPct, if_pos rfl]
  · rw [ideal_val, hm, hb]
    norm_num [base_1y_mining_per_mw, base_1y_batt_per_mw]
  · rw [roi_years, if_neg (by norm_num)]
  · rw [irr_est, if_neg (by norm_num)]

end WestTexasHybrid
